import Mathlib

/-!
Shallow embedding of the DocuChart frontend logic: the message-bubble
rendering guards, the chart visualizer, the chat send handler, the
session-identifier bootstrap, the sidebar conversation filter and the
document status chip. Each definition mirrors a function or JSX guard of
the React source; JS truthiness on strings and options is made explicit
(a string is falsy exactly when empty, an absent value is `none`).
Numeric scores are modelled as rationals.
-/

namespace DocuChart

/-- Message roles, from the `role` union of user and assistant in the api types. -/
inductive Role where
  | user
  | assistant
deriving DecidableEq, Repr

/-- A retrieval source attached to an assistant message (api `Source`).
`content` is optional because the renderer reads it with `?.`. -/
structure Source where
  document_id : String
  filename : String
  chunk_index : Nat
  content : Option String
  relevance_score : ℚ
deriving DecidableEq

/-- One row of a chart payload, `{name, ...metrics}`; only the ordered
field names matter for series selection, so rows are modelled by their
key list. -/
structure ChartRow where
  keys : List String
deriving DecidableEq

/-- The normalized chart payload `{type, title, data}`; every field is
optional because the renderer guards each with truthiness checks. -/
structure ChartData where
  type : Option String
  title : Option String
  data : Option (List ChartRow)
deriving DecidableEq

/-- A chat message (api `Message`). -/
structure Message where
  id : String
  role : Role
  content : String
  created_at : String
  sources : Option (List Source)
  confidence : Option ℚ
  chart_id : Option String
  chart_data : Option ChartData
deriving DecidableEq

/-- A conversation list entry (api `Conversation`). -/
structure Conversation where
  id : String
  title : String
  created_at : String
  updated_at : String
deriving DecidableEq

/-- The `/api/chat` response shape (api `ChatResponse`). -/
structure ChatResponse where
  message : Message
  sources : Option (List Source)
  chart_data : Option ChartData
deriving DecidableEq

/-- JS `value || fallback` on an optional string: the fallback is taken
when the value is absent or empty (falsy). -/
def jsOrString (value : Option String) (fallback : String) : String :=
  match value with
  | some s => if s = "" then fallback else s
  | none => fallback

/-- JS `s.trim()`: strip leading and trailing whitespace. -/
def jsTrim (s : String) : String :=
  String.mk (((s.toList.dropWhile Char.isWhitespace).reverse.dropWhile
    Char.isWhitespace).reverse)

/-- JS `s.toLowerCase()`: lowercase every character. -/
def jsToLowerCase (s : String) : String :=
  String.mk (s.toList.map Char.toLower)

/-! ## localStorage session bootstrap (App.tsx getSessionId) -/

/-- The browser localStorage, as a partial map from keys to strings. -/
def Store : Type := String → Option String

/-- `localStorage.setItem`. -/
def setItem (storage : Store) (key value : String) : Store :=
  fun k => if k = key then some value else storage k

/-- `getSessionId`: return the stored identifier when it is truthy,
otherwise generate a fresh one, store it under `rag_session_id` and
return it. `freshId` stands for the `uuidv4()` call. -/
def getSessionId (storage : Store) (freshId : String) : String × Store :=
  match storage "rag_session_id" with
  | some stored =>
      if stored ≠ "" then (stored, storage)
      else (freshId, setItem storage "rag_session_id" freshId)
  | none => (freshId, setItem storage "rag_session_id" freshId)

/-! ## api request builders (services/api.ts)

Each builder records the HTTP method, the path, and which session
identifier the request carries (as form field, body field, query
parameter or path segment). -/

/-- A request sent by the api client, reduced to the fields the claims
are about. -/
structure ApiRequest where
  method : String
  path : String
  session_id : Option String
deriving DecidableEq

/-- `uploadDocument`: POST /upload with the file and `session_id` form fields. -/
def uploadDocument (_filename sessionId : String) : ApiRequest :=
  { method := "POST", path := "/upload", session_id := some sessionId }

/-- `sendMessage`: POST /chat with message, conversation_id and session_id in the body. -/
def sendMessage (_message _conversationId sessionId : String) : ApiRequest :=
  { method := "POST", path := "/chat", session_id := some sessionId }

/-- `getDocuments`: GET /documents/:sessionId. -/
def getDocuments (sessionId : String) : ApiRequest :=
  { method := "GET", path := "/documents/" ++ sessionId, session_id := some sessionId }

/-- `createConversation`: POST /conversations?session_id=:sessionId. -/
def createConversation (sessionId : String) : ApiRequest :=
  { method := "POST", path := "/conversations?session_id=" ++ sessionId,
    session_id := some sessionId }

/-- `getConversations`: GET /sessions/:sessionId/conversations. -/
def getConversations (sessionId : String) : ApiRequest :=
  { method := "GET", path := "/sessions/" ++ sessionId ++ "/conversations",
    session_id := some sessionId }

/-! ## App.tsx handleSendMessage -/

/-- Outcome of the awaited `sendMessage` call: the parsed response, or a
thrown error carrying `error.response?.data?.detail` when available. -/
inductive SendOutcome where
  | success (response : ChatResponse)
  | failure (detail : Option String)
deriving DecidableEq

/-- The component state touched by `handleSendMessage`. -/
structure ChatState where
  messages : List Message
  loading : Bool
deriving DecidableEq

/-- The assistant message assembled from a successful response:
`{...response.message, sources: response.sources || response.message.sources || [],
chart_data: response.chart_data || response.message.chart_data}`. -/
def assistantMessage (response : ChatResponse) : Message :=
  { response.message with
    sources := some (response.sources.getD (response.message.sources.getD [])),
    chart_data := response.chart_data.orElse (fun _ => response.message.chart_data) }

/-- `handleSendMessage`: bail out when no conversation is initialized;
otherwise append the user message, then on success append the assembled
assistant message and on failure append an assistant-role error message
whose content is the server detail when truthy and a fixed fallback
otherwise. `userId`/`errorId` stand for the `uuidv4()` calls and
`t1`/`t2` for the two `new Date().toISOString()` calls. -/
def handleSendMessage (conversationId : Option String) (messageText : String)
    (userId t1 : String) (outcome : SendOutcome) (errorId t2 : String)
    (st : ChatState) : ChatState :=
  match conversationId with
  | none => st
  | some _ =>
    let userMessage : Message :=
      { id := userId, role := Role.user, content := messageText, created_at := t1,
        sources := none, confidence := none, chart_id := none, chart_data := none }
    let afterUser : ChatState := { messages := st.messages ++ [userMessage], loading := true }
    match outcome with
    | SendOutcome.success response =>
        { messages := afterUser.messages ++ [assistantMessage response], loading := false }
    | SendOutcome.failure detail =>
        let errorMsg : Message :=
          { id := errorId, role := Role.assistant,
            content := jsOrString detail "Failed to get response. Is the backend running?",
            created_at := t2,
            sources := none, confidence := none, chart_id := none, chart_data := none }
        { messages := afterUser.messages ++ [errorMsg], loading := false }

/-! ## ChatInterface.tsx handleSend -/

/-- `handleSend`: when the trimmed input is truthy and no request is in
flight, emit the trimmed input and clear the field; otherwise emit
nothing and leave the field as it is. The first component is the message
passed to `onSendMessage`, the second the new input state. -/
def handleSend (input : String) (loading : Bool) : Option String × String :=
  if jsTrim input ≠ "" ∧ loading = false then (some (jsTrim input), "") else (none, input)

/-- The send button `disabled={!input.trim() || loading}` flag. -/
def sendButtonDisabled (input : String) (loading : Bool) : Bool :=
  decide (jsTrim input = "") || loading

/-! ## ConversationSidebar.tsx filtering -/

/-- Whether `needle` occurs at the head of `hay` (character-wise). -/
def matchesAt : List Char → List Char → Bool
  | [], _ => true
  | _ :: _, [] => false
  | a :: as, b :: bs => (a == b) && matchesAt as bs

/-- Whether `needle` occurs contiguously anywhere in `hay`. -/
def occursIn (needle : List Char) : List Char → Bool
  | [] => needle.isEmpty
  | b :: bs => matchesAt needle (b :: bs) || occursIn needle bs

/-- JS `hay.includes(needle)` on strings. -/
def strIncludes (hay needle : String) : Bool :=
  occursIn needle.toList hay.toList

/-- The sidebar filter effect: with a truthy query keep the conversations
whose lowercased title includes the lowercased query, otherwise show the
whole list. -/
def filteredConversations (conversations : List Conversation) (searchQuery : String) :
    List Conversation :=
  if searchQuery ≠ "" then
    conversations.filter (fun conv =>
      strIncludes (jsToLowerCase conv.title) (jsToLowerCase searchQuery))
  else conversations

/-! ## DocumentList.tsx status chip -/

/-- The three status icons used by `getStatusIcon`. -/
inductive StatusIcon where
  | checkCircle
  | hourglassEmpty
  | errorIcon
deriving DecidableEq, Repr

/-- `getStatusIcon`: icon per document status, none on the default branch. -/
def getStatusIcon (status : String) : Option StatusIcon :=
  if status = "ready" then some StatusIcon.checkCircle
  else if status = "processing" then some StatusIcon.hourglassEmpty
  else if status = "failed" then some StatusIcon.errorIcon
  else none

/-- `getStatusColor`: chip color per document status, default otherwise. -/
def getStatusColor (status : String) : String :=
  if status = "ready" then "success"
  else if status = "processing" then "warning"
  else if status = "failed" then "error"
  else "default"

/-! ## ChartVisualizer.tsx -/

/-- The plotted series of a rendered chart: a line or bar chart draws one
series per data key, a pie chart one slice series keyed by a single
optional data key (`dataKeys[0]`, absent when the key list is empty). -/
inductive Plot where
  | line (seriesKeys : List String)
  | pie (dataKey : Option String)
  | bar (seriesKeys : List String)
deriving DecidableEq, Repr

/-- A non-null render result of `ChartVisualizer`: the optional heading
and the plotted chart. -/
structure RenderedChart where
  title : Option String
  plot : Plot
deriving DecidableEq

/-- `renderChart`: switch on the chart type; `line` and `pie` have their
own branches and every other type falls to the bar-chart default. -/
def renderChart (ty : String) (dataKeys : List String) : Plot :=
  if ty = "line" then Plot.line dataKeys
  else if ty = "pie" then Plot.pie dataKeys.head?
  else Plot.bar dataKeys

/-- `ChartVisualizer`: return null when the payload, its `data` array, or
any first row is missing; otherwise plot the keys of the first row other
than `name`. -/
def ChartVisualizer (data : Option ChartData) (title : Option String) (ty : String) :
    Option RenderedChart :=
  match data with
  | none => none
  | some d =>
    match d.data with
    | none => none
    | some [] => none
    | some (row0 :: _) =>
      let dataKeys := row0.keys.filter (fun k => k ≠ "name")
      some { title := title, plot := renderChart ty dataKeys }

/-! ## MessageBubble.tsx -/

/-- `getConfidenceColor`: default on a falsy confidence, then threshold
at 0.7 and 0.4. -/
def getConfidenceColor (confidence : Option ℚ) : String :=
  match confidence with
  | none => "default"
  | some c =>
    if c = 0 then "default"
    else if c ≥ 7/10 then "success"
    else if c ≥ 2/5 then "warning"
    else "error"

/-- `getConfidenceLabel`: empty on a falsy confidence, otherwise the
rounded percentage text. -/
def getConfidenceLabel (confidence : Option ℚ) : String :=
  match confidence with
  | none => ""
  | some c =>
    if c = 0 then ""
    else toString ⌊c * 100 + 1/2⌋ ++ "% confident"

/-- The confidence chip as rendered: its label and chip color. -/
structure ConfidenceChip where
  label : String
  color : String
deriving DecidableEq

/-- What the relevance slot of a source entry renders. The JSX guard is
the bare conjunction of a number and an element, so it never renders
nothing: a truthy score yields the percentage label, while a falsy score
makes the conjunction evaluate to the number itself, which React paints
as a text node. -/
inductive RelevanceNode where
  | textNode (text : String)
  | percentLabel (pct : ℤ)
deriving DecidableEq, Repr

/-- The text a relevance node puts on screen. -/
def RelevanceNode.displayed : RelevanceNode → String
  | RelevanceNode.textNode text => text
  | RelevanceNode.percentLabel pct => toString pct ++ "% relevant"

/-- One rendered source entry in the collapsible source list. -/
structure RenderedSource where
  label : String
  relevanceNode : RelevanceNode
  snippet : Option String
deriving DecidableEq

/-- One entry of the source list: fallback label on a falsy filename; the
relevance percentage label when the score is truthy, and otherwise the
guard leaks the falsy number 0, which React renders as the literal text
node 0; and the 200-char snippet when content is present. -/
def renderSource (idx : Nat) (source : Source) : RenderedSource :=
  { label := if source.filename = "" then "Source " ++ toString (idx + 1) else source.filename,
    relevanceNode :=
      if source.relevance_score ≠ 0 then
        RelevanceNode.percentLabel ⌊source.relevance_score * 100 + 1/2⌋
      else RelevanceNode.textNode "0",
    snippet := source.content.map (fun s =>
      s.take 200 ++ (if 200 < s.length then "..." else "")) }

/-- The observable output of one `MessageBubble` render. -/
structure RenderedBubble where
  isUser : Bool
  content : String
  chart : Option RenderedChart
  confidenceChip : Option ConfidenceChip
  sourcesChipCount : Option Nat
  sourceItems : List RenderedSource
deriving DecidableEq

/-- `MessageBubble`: compute `hasSources` and `hasChart` only for
non-user messages; always render `message.content`; render the chart
(with `title || "Data Visualization"` and `type` with bar fallback) only under
`hasChart`; render the confidence chip only in the non-user metadata row
and only for a strictly positive confidence; render the sources toggle
and list only under `hasSources`. -/
def MessageBubble (message : Message) : RenderedBubble :=
  let isUser : Bool := decide (message.role = Role.user)
  let hasSources : Bool := !isUser &&
    (match message.sources with
     | some ss => decide (0 < ss.length)
     | none => false)
  let hasChart : Bool := !isUser && message.chart_data.isSome
  { isUser := isUser
    content := message.content
    chart :=
      if hasChart then
        match message.chart_data with
        | some cd =>
            ChartVisualizer (some cd)
              (some (jsOrString cd.title "Data Visualization"))
              (jsOrString cd.type "bar")
        | none => none
      else none
    confidenceChip :=
      if !isUser &&
          (match message.confidence with
           | some c => decide (0 < c)
           | none => false) then
        some { label := getConfidenceLabel message.confidence,
               color := getConfidenceColor message.confidence }
      else none
    sourcesChipCount :=
      if hasSources then some (message.sources.getD []).length else none
    sourceItems :=
      if hasSources then
        ((message.sources.getD []).enum).map (fun p => renderSource p.1 p.2)
      else [] }

/-! ## Shared lemmas -/

/-- The empty character sequence occurs in every sequence. -/
theorem occursIn_nil (hay : List Char) : occursIn [] hay = true := by
  cases hay with
  | nil => rfl
  | cons b bs => simp [occursIn, matchesAt]

/-! ## Claims -/

/-- C1: a message with role user renders no chart, no confidence chip,
no sources toggle and no source list, whatever fields the message
carries: `hasSources` and `hasChart` are false for user messages and the
metadata row is rendered only for non-user messages. -/
theorem userBubbleCarriesNoMetadata (m : Message) (h : m.role = Role.user) :
    (MessageBubble m).chart = none ∧ (MessageBubble m).confidenceChip = none ∧
    (MessageBubble m).sourcesChipCount = none ∧ (MessageBubble m).sourceItems = [] := by
  simp [MessageBubble, h]

/-- A user message populated with sources, confidence and a chart
payload, to exercise C1 on a concrete input. -/
def populatedUserMessage : Message :=
  { id := "u1", role := Role.user, content := "hello", created_at := "2026-01-01T00:00:00Z",
    sources := some [⟨"d1", "report.pdf", 0, some "some text", 9/10⟩],
    confidence := some (4/5), chart_id := some "c1",
    chart_data := some ⟨some "line", some "Totals", some [⟨["name", "value"]⟩]⟩ }

/-- C1 witness: the populated user message still renders none of the
assistant-only metadata. -/
theorem userBubbleCarriesNoMetadata_witness :
    (MessageBubble populatedUserMessage).chart = none ∧
    (MessageBubble populatedUserMessage).confidenceChip = none ∧
    (MessageBubble populatedUserMessage).sourcesChipCount = none ∧
    (MessageBubble populatedUserMessage).sourceItems = [] :=
  userBubbleCarriesNoMetadata populatedUserMessage rfl

/-- C2: for an assistant message whose chart payload is absent, lacks a
`data` array, or has zero rows, `ChartVisualizer` returns null, the
bubble renders no chart, and the textual content is still rendered
unchanged. -/
theorem emptyChartNeverSuppressesAnswer (m : Message)
    (hrole : m.role = Role.assistant)
    (h : m.chart_data = none ∨
      ∃ cd, m.chart_data = some cd ∧ (cd.data = none ∨ cd.data = some [])) :
    (∀ title ty, ChartVisualizer m.chart_data title ty = none) ∧
    (MessageBubble m).chart = none ∧
    (MessageBubble m).content = m.content := by
  rcases h with h | ⟨cd, hcd, hd⟩
  · refine ⟨fun title ty => ?_, ?_, ?_⟩ <;> simp [ChartVisualizer, MessageBubble, h, hrole]
  · rcases hd with hd | hd <;>
      refine ⟨fun title ty => ?_, ?_, ?_⟩ <;>
        simp [ChartVisualizer, MessageBubble, hcd, hd, hrole]

/-- An assistant message whose chart payload has an empty rows array, to
exercise C2 on a concrete input. -/
def emptyChartAssistantMessage : Message :=
  { id := "a1", role := Role.assistant, content := "The revenue grew.",
    created_at := "2026-01-01T00:00:00Z",
    sources := none, confidence := some (1/2), chart_id := none,
    chart_data := some ⟨some "bar", some "Empty", some []⟩ }

/-- C2 witness: a chart payload with zero rows renders nothing while the
answer text survives. -/
theorem emptyChartNeverSuppressesAnswer_witness :
    (∀ title ty, ChartVisualizer emptyChartAssistantMessage.chart_data title ty = none) ∧
    (MessageBubble emptyChartAssistantMessage).chart = none ∧
    (MessageBubble emptyChartAssistantMessage).content = "The revenue grew." :=
  emptyChartNeverSuppressesAnswer emptyChartAssistantMessage rfl
    (Or.inr ⟨⟨some "bar", some "Empty", some []⟩, rfl, Or.inr rfl⟩)

/-- C3: a failed send appends the user message and then an
assistant-role error message; the content of the error message is the
server detail when that detail is a truthy string and the fixed fallback
text otherwise; the previous messages and the just-appended user message
all survive in place. -/
theorem failedSendAppendsFallback (convId : String) (st : ChatState)
    (text userId t1 errorId t2 : String) (detail : Option String) :
    (handleSendMessage (some convId) text userId t1 (SendOutcome.failure detail)
        errorId t2 st).messages
      = st.messages ++
        [ { id := userId, role := Role.user, content := text, created_at := t1,
            sources := none, confidence := none, chart_id := none, chart_data := none },
          { id := errorId, role := Role.assistant,
            content := jsOrString detail "Failed to get response. Is the backend running?",
            created_at := t2,
            sources := none, confidence := none, chart_id := none, chart_data := none } ]
    ∧ (∀ d, detail = some d → d ≠ "" →
        jsOrString detail "Failed to get response. Is the backend running?" = d)
    ∧ (detail = none →
        jsOrString detail "Failed to get response. Is the backend running?"
          = "Failed to get response. Is the backend running?") := by
  refine ⟨?_, ?_, ?_⟩
  · simp [handleSendMessage]
  · intro d hd hne
    simp [jsOrString, hd, hne]
  · intro hd
    simp [jsOrString, hd]

/-- C3 witness: a failed send with a concrete server detail appends the
user message and the assistant error message carrying that detail. -/
theorem failedSendAppendsFallback_witness :
    (handleSendMessage (some "conv-1") "what grew?" "u-id" "t1"
        (SendOutcome.failure (some "Rate limit exceeded")) "e-id" "t2"
        ⟨[], false⟩).messages
      = [ { id := "u-id", role := Role.user, content := "what grew?", created_at := "t1",
            sources := none, confidence := none, chart_id := none, chart_data := none },
          { id := "e-id", role := Role.assistant, content := "Rate limit exceeded",
            created_at := "t2",
            sources := none, confidence := none, chart_id := none, chart_data := none } ] := by
  have h := failedSendAppendsFallback "conv-1" ⟨[], false⟩ "what grew?" "u-id" "t1"
    "e-id" "t2" (some "Rate limit exceeded")
  rw [h.1, h.2.1 "Rate limit exceeded" rfl (by decide)]
  rfl

/-- C4: a successful send extends the message list by exactly the user
message followed by the assembled assistant reply, appended at the end;
the original list is the unchanged prefix, so every pre-existing message
keeps its position. -/
theorem successfulSendAppendsTwo (convId : String) (st : ChatState)
    (text userId t1 errorId t2 : String) (response : ChatResponse) :
    (handleSendMessage (some convId) text userId t1 (SendOutcome.success response)
        errorId t2 st).messages
      = st.messages ++
        [ { id := userId, role := Role.user, content := text, created_at := t1,
            sources := none, confidence := none, chart_id := none, chart_data := none },
          assistantMessage response ]
    ∧ (handleSendMessage (some convId) text userId t1 (SendOutcome.success response)
        errorId t2 st).messages.take st.messages.length = st.messages
    ∧ (assistantMessage response).role = response.message.role := by
  refine ⟨?_, ?_, rfl⟩
  · simp [handleSendMessage]
  · simp [handleSendMessage, List.take_append]

/-- C5: the document status chip maps ready to a success-colored check,
processing to a warning-colored hourglass, failed to an error-colored
error icon, any other status to the default color with no icon, and the
three colors are pairwise distinct. -/
theorem statusChipMapping :
    getStatusColor "ready" = "success" ∧ getStatusIcon "ready" = some StatusIcon.checkCircle ∧
    getStatusColor "processing" = "warning" ∧
    getStatusIcon "processing" = some StatusIcon.hourglassEmpty ∧
    getStatusColor "failed" = "error" ∧ getStatusIcon "failed" = some StatusIcon.errorIcon ∧
    (∀ s : String, s ≠ "ready" → s ≠ "processing" → s ≠ "failed" →
      getStatusColor s = "default" ∧ getStatusIcon s = none) ∧
    (getStatusColor "ready" ≠ getStatusColor "processing" ∧
     getStatusColor "ready" ≠ getStatusColor "failed" ∧
     getStatusColor "processing" ≠ getStatusColor "failed") := by
  refine ⟨rfl, rfl, ?_, ?_, ?_, ?_, ?_, ?_⟩
  · simp [getStatusColor]
  · simp [getStatusIcon]
  · simp [getStatusColor]
  · simp [getStatusIcon]
  · intro s h1 h2 h3
    exact ⟨by simp [getStatusColor, h1, h2, h3], by simp [getStatusIcon, h1, h2, h3]⟩
  · refine ⟨?_, ?_, ?_⟩ <;> simp [getStatusColor]

/-- C5 witness: an unrecognized status string gets the default color and
no icon. -/
theorem statusChipMapping_witness :
    getStatusColor "queued" = "default" ∧ getStatusIcon "queued" = none :=
  statusChipMapping.2.2.2.2.2.2.1 "queued" (by decide) (by decide) (by decide)

/-- C6: the session identifier is stable — a second `getSessionId` call
on the storage left by the first returns the same value — and each of
the upload, chat, document-list, conversation-list and
conversation-create requests carries exactly the session identifier it
is given, so the app, which passes its single `sessionId` state to all
five, sends the same identifier everywhere. -/
theorem sessionIdStableAndCarried (storage : Store) (freshId freshId2 : String)
    (h : freshId ≠ "") :
    (getSessionId (getSessionId storage freshId).2 freshId2).1
      = (getSessionId storage freshId).1
    ∧ (∀ file sessionId : String,
        (uploadDocument file sessionId).session_id = some sessionId)
    ∧ (∀ msg convId sessionId : String,
        (sendMessage msg convId sessionId).session_id = some sessionId)
    ∧ (∀ sessionId : String, (getDocuments sessionId).session_id = some sessionId)
    ∧ (∀ sessionId : String, (getConversations sessionId).session_id = some sessionId)
    ∧ (∀ sessionId : String, (createConversation sessionId).session_id = some sessionId) := by
  refine ⟨?_, fun _ _ => rfl, fun _ _ _ => rfl, fun _ => rfl, fun _ => rfl, fun _ => rfl⟩
  rcases hs : storage "rag_session_id" with _ | stored
  · simp [getSessionId, setItem, hs, h]
  · by_cases he : stored = ""
    · simp [getSessionId, setItem, hs, he, h]
    · simp [getSessionId, hs, he]

/-- C6 witness: starting from empty storage, the freshly generated
identifier is returned again by the next call. -/
theorem sessionIdStableAndCarried_witness :
    (getSessionId (getSessionId (fun _ => none) "uuid-abc").2 "uuid-xyz").1
      = (getSessionId (fun _ => none) "uuid-abc").1 ∧
    (getSessionId (fun _ => none) "uuid-abc").1 = "uuid-abc" :=
  ⟨(sessionIdStableAndCarried (fun _ => none) "uuid-abc" "uuid-xyz" (by decide)).1, rfl⟩

/-- C7: with a non-empty data array the visualizer plots exactly the
keys of the first row other than `name` (the later rows never influence
the plotted series); a pie chart plots only the first such key; any type
other than line and pie falls to the bar branch; and the bubble passes
`type` with the bar fallback to the visualizer, so an absent type arrives as bar. -/
theorem chartSeriesFromFirstRow (cd : ChartData) (row0 : ChartRow) (rest : List ChartRow)
    (hdata : cd.data = some (row0 :: rest)) (title : Option String) (ty : String) :
    ChartVisualizer (some cd) title ty
      = some { title := title,
               plot := renderChart ty (row0.keys.filter (fun k => k ≠ "name")) }
    ∧ (ty = "pie" → renderChart ty (row0.keys.filter (fun k => k ≠ "name"))
        = Plot.pie (row0.keys.filter (fun k => k ≠ "name")).head?)
    ∧ (ty ≠ "line" → ty ≠ "pie" →
        renderChart ty (row0.keys.filter (fun k => k ≠ "name"))
          = Plot.bar (row0.keys.filter (fun k => k ≠ "name")))
    ∧ (∀ m : Message, m.role = Role.assistant → m.chart_data = some cd →
        (MessageBubble m).chart
          = ChartVisualizer (some cd) (some (jsOrString cd.title "Data Visualization"))
              (jsOrString cd.type "bar"))
    ∧ (cd.type = none → jsOrString cd.type "bar" = "bar") := by
  refine ⟨?_, ?_, ?_, ?_, ?_⟩
  · simp [ChartVisualizer, hdata]
  · intro hp
    simp [renderChart, hp]
  · intro h1 h2
    simp [renderChart, h1, h2]
  · intro m hrole hcd
    simp [MessageBubble, hrole, hcd]
  · intro ht
    simp [jsOrString, ht]

/-- C7 witness: a pie payload whose second row has an extra metric key
still plots only the first key of the first row. -/
theorem chartSeriesFromFirstRow_witness :
    ChartVisualizer
        (some ⟨some "pie", none,
          some [⟨["name", "revenue"]⟩, ⟨["name", "revenue", "profit"]⟩]⟩) none "pie"
      = some ⟨none, Plot.pie (some "revenue")⟩ := by
  have h := chartSeriesFromFirstRow
    ⟨some "pie", none, some [⟨["name", "revenue"]⟩, ⟨["name", "revenue", "profit"]⟩]⟩
    ⟨["name", "revenue"]⟩ [⟨["name", "revenue", "profit"]⟩] rfl none "pie"
  rw [h.1, h.2.1 rfl]
  rfl

/-- C8: a message is sent exactly when the trimmed input is non-empty
and no request is in flight — which is also exactly when the send button
is enabled; the sent content is the trimmed input and the field is
cleared; otherwise nothing is sent and the field is untouched. -/
theorem handleSendGuard (input : String) (loading : Bool) :
    (jsTrim input ≠ "" ∧ loading = false →
      handleSend input loading = (some (jsTrim input), "")) ∧
    (jsTrim input = "" ∨ loading = true →
      handleSend input loading = (none, input)) ∧
    ((handleSend input loading).1.isSome ↔ sendButtonDisabled input loading = false) := by
  refine ⟨?_, ?_, ?_⟩
  · intro h
    simp [handleSend, h]
  · intro h
    rcases h with h | h <;> simp [handleSend, h]
  · by_cases ht : jsTrim input = "" <;> cases loading <;>
      simp [handleSend, sendButtonDisabled, ht]

/-- C8 witness: a padded input while idle sends its trimmed text and
clears the field; a whitespace-only input sends nothing; any input while
loading sends nothing. -/
theorem handleSendGuard_witness :
    handleSend "  hello  " false = (some "hello", "") ∧
    handleSend "   " false = (none, "   ") ∧
    handleSend "hello" true = (none, "hello") := by
  refine ⟨?_, (handleSendGuard "   " false).2.1 (Or.inl (by decide)),
    (handleSendGuard "hello" true).2.1 (Or.inr rfl)⟩
  have h := (handleSendGuard "  hello  " false).1 ⟨by decide, rfl⟩
  rw [h]
  decide

/-- C9 (amended): a confidence of exactly 0 renders the bubble
identically to an absent confidence — no chip at all, and the
color/label helpers agree on the two — while a positive confidence on an
assistant message shows the chip; a truthy relevance score shows the
rounded percentage label, but a relevance score of 0 does not display
nothing: the bare conjunction guard leaks the falsy number 0 and the
entry displays the literal text 0. -/
theorem zeroScoresHidden (m : Message) (source : Source) (idx : Nat) :
    MessageBubble { m with confidence := some 0 }
      = MessageBubble { m with confidence := none }
    ∧ (MessageBubble { m with confidence := some 0 }).confidenceChip = none
    ∧ getConfidenceColor (some 0) = getConfidenceColor none
    ∧ getConfidenceLabel (some 0) = getConfidenceLabel none
    ∧ (∀ c : ℚ, m.confidence = some c → 0 < c → m.role = Role.assistant →
        (MessageBubble m).confidenceChip
          = some ⟨getConfidenceLabel m.confidence, getConfidenceColor m.confidence⟩)
    ∧ (source.relevance_score ≠ 0 →
        (renderSource idx source).relevanceNode
          = RelevanceNode.percentLabel ⌊source.relevance_score * 100 + 1/2⌋)
    ∧ (source.relevance_score = 0 →
        (renderSource idx source).relevanceNode = RelevanceNode.textNode "0"
        ∧ (renderSource idx source).relevanceNode.displayed = "0") := by
  refine ⟨?_, ?_, rfl, rfl, ?_, ?_, ?_⟩
  · simp [MessageBubble]
  · simp [MessageBubble]
  · intro c hc hpos hrole
    simp [MessageBubble, hc, hpos, hrole]
  · intro h
    simp [renderSource, h]
  · intro h
    simp [renderSource, RelevanceNode.displayed, h]

/-- A plain assistant message without confidence, shared base for the C9
witness. -/
def plainAssistantMessage : Message :=
  { id := "a2", role := Role.assistant, content := "ok", created_at := "t",
    sources := none, confidence := none, chart_id := none, chart_data := none }

/-- A source with relevance score 0, for the C9 witness. -/
def zeroRelevanceSource : Source :=
  ⟨"d1", "a.pdf", 0, some "x", 0⟩

/-- A source with relevance score 0.83, for the C9 witness. -/
def highRelevanceSource : Source :=
  ⟨"d1", "a.pdf", 0, some "x", 83/100⟩

/-- C9 counterexample to the original claim: a zero-relevance source
does not display no score at all — its relevance slot is the leaked
number rendered as the text 0, a non-empty display. -/
theorem zeroScoresHidden_counterexample :
    (renderSource 0 zeroRelevanceSource).relevanceNode = RelevanceNode.textNode "0"
    ∧ (renderSource 0 zeroRelevanceSource).relevanceNode.displayed = "0"
    ∧ (renderSource 0 zeroRelevanceSource).relevanceNode.displayed ≠ "" := by
  refine ⟨rfl, rfl, ?_⟩
  decide

/-- C9 witness: on a concrete assistant message, confidence 0 and
confidence absent render the same bubble; a 0.83-relevance source shows
the 83 percent label while a zero-relevance one leaks the literal 0. -/
theorem zeroScoresHidden_witness :
    MessageBubble { plainAssistantMessage with confidence := some 0 }
      = MessageBubble { plainAssistantMessage with confidence := none }
    ∧ (renderSource 0 highRelevanceSource).relevanceNode = RelevanceNode.percentLabel 83
    ∧ (renderSource 0 zeroRelevanceSource).relevanceNode = RelevanceNode.textNode "0" := by
  have h1 := zeroScoresHidden plainAssistantMessage zeroRelevanceSource 0
  have h2 := zeroScoresHidden plainAssistantMessage highRelevanceSource 0
  refine ⟨h1.1, ?_, (h1.2.2.2.2.2.2 rfl).1⟩
  rw [h2.2.2.2.2.2.1 (by norm_num [highRelevanceSource])]
  norm_num [highRelevanceSource]

/-- C10: the sidebar filter returns exactly the conversations whose
lowercased title includes the lowercased query, in the original order
and without duplication (it is a sublist of the input); the empty query
is the identity. -/
theorem sidebarFilterExact (conversations : List Conversation) (searchQuery : String) :
    filteredConversations conversations searchQuery
      = conversations.filter
          (fun conv => strIncludes (jsToLowerCase conv.title) (jsToLowerCase searchQuery))
    ∧ (searchQuery = "" → filteredConversations conversations searchQuery = conversations)
    ∧ List.Sublist (filteredConversations conversations searchQuery) conversations
    ∧ (∀ conv, conv ∈ filteredConversations conversations searchQuery ↔
        conv ∈ conversations ∧
          strIncludes (jsToLowerCase conv.title) (jsToLowerCase searchQuery) = true) := by
  have hfilter : filteredConversations conversations searchQuery
      = conversations.filter
          (fun conv =>
            strIncludes (jsToLowerCase conv.title) (jsToLowerCase searchQuery)) := by
    by_cases hq : searchQuery = ""
    · subst hq
      simp only [filteredConversations, ne_eq, not_true_eq_false, if_false]
      refine (List.filter_eq_self.mpr ?_).symm
      intro conv _
      have hnil : (jsToLowerCase "").toList = [] := rfl
      show strIncludes (jsToLowerCase conv.title) (jsToLowerCase "") = true
      rw [strIncludes, hnil]
      exact occursIn_nil (jsToLowerCase conv.title).toList
    · simp [filteredConversations, hq]
  refine ⟨hfilter, ?_, ?_, ?_⟩
  · intro hq
    simp [filteredConversations, hq]
  · rw [hfilter]
    exact List.filter_sublist conversations
  · intro conv
    rw [hfilter]
    simp [List.mem_filter]

/-- C10 witness: on a concrete list, the query matches
case-insensitively and preserves order, and the empty query returns the
whole list. -/
theorem sidebarFilterExact_witness :
    filteredConversations
        [⟨"1", "Budget Report", "t", "t"⟩, ⟨"2", "Notes", "t", "t"⟩,
         ⟨"3", "Q2 report draft", "t", "t"⟩] "REPORT"
      = [⟨"1", "Budget Report", "t", "t"⟩, ⟨"3", "Q2 report draft", "t", "t"⟩]
    ∧ filteredConversations
        [⟨"1", "Budget Report", "t", "t"⟩, ⟨"2", "Notes", "t", "t"⟩] ""
      = [⟨"1", "Budget Report", "t", "t"⟩, ⟨"2", "Notes", "t", "t"⟩] := by
  refine ⟨?_, (sidebarFilterExact
    [⟨"1", "Budget Report", "t", "t"⟩, ⟨"2", "Notes", "t", "t"⟩] "").2.1 rfl⟩
  rw [(sidebarFilterExact
    [⟨"1", "Budget Report", "t", "t"⟩, ⟨"2", "Notes", "t", "t"⟩,
     ⟨"3", "Q2 report draft", "t", "t"⟩] "REPORT").1]
  decide

end DocuChart
